import Mathlib

/-!
# Verification of the sandboxed command-execution subsystem of `maruel/ask`

Shallow embedding of the three platform sandbox strategies (Linux
bubblewrap, macOS Seatbelt via `sandbox-exec`, Windows restricted token +
AppContainer) and the shared temp-file helper, translated from the Go
sources (`internal/ask/sandbox_darwin.go`, `internal/ask/experiment.go`,
`internal/ask.go`, and the `shelltool` package sources reproduced in
`README.md`).

The embedding models:
* child-process output as a list of write events (stream tag + bytes),
  with the Go `os/exec` collectors `CombinedOutput` (both streams merged in
  arrival order) and `Output` (stdout only) as folds over that list;
* the filesystem as an association list from paths to contents, with the
  outcomes of `os.CreateTemp`/`WriteString`/`Close` scripted by an oracle
  so that every failure path of `writeTempFile` and of the callbacks that
  use it is reachable;
* process-construction side conditions (argument vectors, environment,
  whether the launch is bound to the caller's `context.Context`, pipe
  plumbing of the Windows strategy, exit-code-to-error conversion) as
  explicit data computed by the same straight-line logic as the Go code.
-/

set_option maxRecDepth 100000

namespace Ask

/-- The two standard streams a child process can write to. -/
inductive StdStream where
  | stdout
  | stderr
deriving DecidableEq, Repr

instance : BEq StdStream := instBEqOfDecidableEq

/-- One write performed by the child process: target stream and bytes written. -/
abbrev WriteEvent := StdStream × String

/-- Concatenation of the bytes of a list of write events, in order. -/
def concatWrites : List WriteEvent → String
  | [] => ""
  | e :: t => e.2 ++ concatWrites t

/-- Go `(*exec.Cmd).CombinedOutput`: stdout and stderr go to one buffer in
arrival order, so the result is the concatenation of all writes. -/
def combinedOutput (evs : List WriteEvent) : String := concatWrites evs

/-- Go `(*exec.Cmd).Output`: only standard output is captured; stderr
writes are not part of the returned bytes. -/
def stdoutOutput (evs : List WriteEvent) : String :=
  concatWrites (evs.filter (fun e => e.1 == StdStream.stdout))

/-- The Linux `bash` tool callback collects output with `cmd.Output()`
(`internal/ask.go` and the `!windows && !darwin` `getSandbox`). -/
def linuxCallbackOutput (evs : List WriteEvent) : String := stdoutOutput evs

/-- The macOS `zsh` tool callback collects output with
`cmd.CombinedOutput()` (`internal/ask/sandbox_darwin.go`). -/
def darwinCallbackOutput (evs : List WriteEvent) : String := combinedOutput evs

/-- `readFromPipe` of the `shelltool` Windows strategy: a single loop that
appends every chunk read from the pipe to one buffer until end-of-file. -/
def readFromPipe : List String → String
  | [] => ""
  | c :: t => c ++ readFromPipe t

/-- The single anonymous pipe of `runWithAppContainer` carries every write
of the child (both std handles point at its write end), in order. -/
def singlePipeChunks (evs : List WriteEvent) : List String := evs.map Prod.snd

/-- The Windows `powershell` tool callback's merged output: the bytes read
sequentially from the single pipe's read end until end-of-file. -/
def windowsCallbackOutput (evs : List WriteEvent) : String :=
  readFromPipe (singlePipeChunks evs)

theorem readFromPipe_singlePipeChunks (evs : List WriteEvent) :
    readFromPipe (singlePipeChunks evs) = concatWrites evs := by
  induction evs with
  | nil => rfl
  | cons e t ih => simp only [singlePipeChunks, List.map_cons, readFromPipe, concatWrites] at ih ⊢; rw [ih]

/-! ## Linux strategy (`getSandbox`, `!windows && !darwin` build) -/

/-- The bubblewrap argument vector built inline in the Linux callback:
`{"--ro-bind", "/", "/", "--tmpfs", "/tmp", "--dev", "/dev", "--proc",
"/proc", "--", "bash", "-c", args.CommandLine}`. -/
def linuxBwrapArgv (commandLine : String) : List String :=
  ["--ro-bind", "/", "/", "--tmpfs", "/tmp", "--dev", "/dev", "--proc", "/proc",
   "--", "bash", "-c", commandLine]

/-- What the Linux callback does for one invocation, as static data:
the argument vector handed to `bwrap`, the environment entries appended to
the parent environment, whether the process is created through
`exec.CommandContext` (and is therefore killed when the caller's context
is cancelled), and which temporary files are materialized. -/
structure LinuxInvocation where
  argv : List String
  extraEnv : List String
  ctxBound : Bool
  materializedFiles : List String
deriving Repr, DecidableEq

/-- The Linux callback: `exec.CommandContext(ctx, bwrapPath, v...)` with
`LANG=C` appended and no temporary file written. -/
def linuxCallbackInvocation (commandLine : String) : LinuxInvocation :=
  { argv := linuxBwrapArgv commandLine
    extraEnv := ["LANG=C"]
    ctxBound := true
    materializedFiles := [] }

/-! ## Filesystem model and `writeTempFile` (`internal/ask/experiment.go`) -/

/-- The filesystem visible to one invocation: an association list from
paths to file contents. -/
abbrev FS := List (String × String)

/-- Content of the file at a path, if it exists. -/
def FS.lookup : FS → String → Option String
  | [], _ => none
  | (p, c) :: t, q => if p = q then some c else FS.lookup t q

/-- `os.Remove`: the path no longer resolves to a file. -/
def FS.remove (fs : FS) (p : String) : FS :=
  fs.filter (fun e => !(e.1 == p))

/-- Create or truncate-and-write the file at a path. -/
def FS.set (fs : FS) (p c : String) : FS := (p, c) :: FS.remove fs p

/-- Outcomes of the OS calls made by one `writeTempFile` call:
whether `os.CreateTemp` succeeds and which fresh name it picks, whether
`f.WriteString` succeeds, and whether `f.Close` succeeds. -/
structure TempFileOracle where
  createOk : Bool
  name : String
  writeOk : Bool
  closeOk : Bool
deriving Repr, DecidableEq

/-- `writeTempFile(g, content)` from `internal/ask/experiment.go`:
creates a temp file, writes `content`, closes it, and returns
`(f.Name(), err)`. On create failure it returns `("", err)`; on write
failure it removes the file and returns `("", err)`; on close failure it
returns the *path together with* the close error (the Go code does
`err = f.Close(); return n, err`). Result: (filesystem after the call,
returned path, returned error). -/
def writeTempFile (o : TempFileOracle) (fs : FS) (content : String) :
    FS × String × Option String :=
  if o.createOk = false then
    (fs, "", some "failed to create temp file")
  else
    let fs1 := FS.set fs o.name ""
    if o.writeOk = false then
      (FS.remove fs1 o.name, "", some "failed to write to temp file")
    else
      let fs2 := FS.set fs1 o.name content
      if o.closeOk then (fs2, o.name, none)
      else (fs2, o.name, some "close failed")

/-! ## macOS strategy (`internal/ask/sandbox_darwin.go`) -/

/-- The Seatbelt profile constant `sb` of the macOS strategy (the revision
carrying the availability checks): deny by default, deny all network,
allow process-exec and file reads, deny file writes except under `/tmp`,
allow sysctl-read and mach-lookup. -/
def sb : String :=
  "(version 1)\n\n; Default policy: deny everything\n(deny default)\n\n; Deny all network access\n(deny network*)\n\n; Allow process execution\n(allow process-exec)\n\n; Allow read-only access to files\n(allow file-read*)\n\n; Deny all file write operations\n(deny file-write*)\n\n; Allow basic system services needed for execution\n(allow sysctl-read)\n(allow mach-lookup)\n\n; Allow write to /tmp\n(allow file-write* (subpath \"/tmp\"))\n"

/-- The `sb` constant of the other revision of `sandbox_darwin.go`,
identical except that the `(deny network*)` clause is absent. -/
def sbRevNoNetworkDeny : String :=
  "(version 1)\n\n; Default policy: deny everything\n(deny default)\n\n; Allow process execution\n(allow process-exec)\n\n; Allow read-only access to files\n(allow file-read*)\n\n; Deny all file write operations\n(deny file-write*)\n\n; Allow basic system services needed for execution\n(allow sysctl-read)\n(allow mach-lookup)\n\n; Allow write to /tmp\n(allow file-write* (subpath \"/tmp\"))\n"

/-- The profile the macOS callback materializes for an invocation. The
darwin `getShellTool` takes no network flag: whatever network access the
caller wanted, the emitted profile is the constant `sb`. -/
def darwinProfile (_allowNetwork : Bool) : String := sb

/-- Outcomes of the environment-dependent steps of one macOS callback
run: the two `writeTempFile` calls, the child's write events, and whether
the child exited with status zero. -/
structure DarwinOracle where
  sbFile : TempFileOracle
  scriptFile : TempFileOracle
  events : List WriteEvent
  exitOk : Bool
deriving Repr, DecidableEq

/-- The macOS `zsh` tool callback (`sandbox_darwin.go`):
materialize `sb` (early-return on error; `defer os.Remove(askSB)` is
registered only after the error check), materialize the script
(early-return on error, which runs only the `askSB` defer), run
`sandbox-exec -f askSB /bin/zsh script` via `CombinedOutput`, and return
its merged output with the run error; both defers then remove the two
temp files. Result: (filesystem after the call, returned output,
returned error). -/
def darwinCallback (o : DarwinOracle) (fs : FS) (script : String) :
    FS × String × Option String :=
  let r1 := writeTempFile o.sbFile fs sb
  match r1.2.2 with
  | some err => (r1.1, "", some err)
  | none =>
    let askSB := r1.2.1
    let r2 := writeTempFile o.scriptFile r1.1 script
    match r2.2.2 with
    | some err => (FS.remove r2.1 askSB, "", some err)
    | none =>
      let scriptPath := r2.2.1
      let out := combinedOutput o.events
      let err2 : Option String := if o.exitOk then none else some "exit status 1"
      (FS.remove (FS.remove r2.1 scriptPath) askSB, out, err2)

/-- Launch data of the macOS callback: the arguments handed to
`/usr/bin/sandbox-exec`, the environment entries appended, and whether
the launch goes through `exec.CommandContext` (so the child is killed
when the caller's context is cancelled). -/
structure DarwinInvocation where
  argv : List String
  extraEnv : List String
  ctxBound : Bool
deriving Repr, DecidableEq

/-- The macOS callback's launch:
`exec.CommandContext(ctx, "/usr/bin/sandbox-exec", "-f", askSB,
"/bin/zsh", script)` with `LANG=C` appended. -/
def darwinCallbackInvocation (askSB script : String) : DarwinInvocation :=
  { argv := ["-f", askSB, "/bin/zsh", script]
    extraEnv := ["LANG=C"]
    ctxBound := true }

/-! ## Windows strategy (`shelltool` package sources in `README.md`, and
the earlier `internal/ask/experiment.go` variant) -/

def WELL_KNOWN_SID_CAPABILITY_DOCUMENTS_LIBRARY : String := "S-1-15-3-1"
def WELL_KNOWN_SID_CAPABILITY_PICTURES_LIBRARY : String := "S-1-15-3-2"
def WELL_KNOWN_SID_CAPABILITY_VIDEOS_LIBRARY : String := "S-1-15-3-3"
def WELL_KNOWN_SID_CAPABILITY_MUSIC_LIBRARY : String := "S-1-15-3-4"
def WELL_KNOWN_SID_CAPABILITY_REMOVABLE_STORAGE : String := "S-1-15-3-5"

/-- Capability SID for outbound internet access under AppContainer
isolation (`// Outbound internet` in the source). -/
def WELL_KNOWN_SID_CAPABILITY_INTERNET_CLIENT : String := "S-1-15-3-1"
def WELL_KNOWN_SID_CAPABILITY_INTERNET_CLIENT_SERVER : String := "S-1-15-3-2"
def WELL_KNOWN_SID_CAPABILITY_PRIVATE_NETWORK_CLIENT_SERVER : String := "S-1-15-3-3"

/-- The capability SID strings `runWithAppContainer` requests for the
AppContainer, copied from its `caps := []string{...}` literal. The list is
built unconditionally: no branch consults a network flag. -/
def runWithAppContainerCaps : List String :=
  [WELL_KNOWN_SID_CAPABILITY_DOCUMENTS_LIBRARY,
   WELL_KNOWN_SID_CAPABILITY_PICTURES_LIBRARY,
   WELL_KNOWN_SID_CAPABILITY_VIDEOS_LIBRARY,
   WELL_KNOWN_SID_CAPABILITY_MUSIC_LIBRARY,
   WELL_KNOWN_SID_CAPABILITY_REMOVABLE_STORAGE,
   WELL_KNOWN_SID_CAPABILITY_INTERNET_CLIENT,
   WELL_KNOWN_SID_CAPABILITY_INTERNET_CLIENT_SERVER,
   WELL_KNOWN_SID_CAPABILITY_PRIVATE_NETWORK_CLIENT_SERVER]

def DISABLE_MAX_PRIVILEGE : Nat := 0x1
def LUA_TOKEN : Nat := 0x4

/-- `setupAppContainerAttributes` creates the attribute list with
`NewProcThreadAttributeList(0)` and the `attributeList.Update(...,
secCaps, ...)` call sits inside `if false { ... }`: the
security-capabilities descriptor is never attached to the process. -/
def securityCapabilitiesApplied : Bool := false

/-- The restriction plan `getShellTool`/`runWithAppContainer` build on
Windows: the restricted-token flags, the requested capability SIDs, and
whether those capabilities are actually attached to the new process. -/
structure WinToolPlan where
  tokenFlags : Nat
  caps : List String
  capsAppliedToProcess : Bool
deriving Repr, DecidableEq

/-- `shelltool.getShellTool(allowNetwork)`: the parameter is never read in
the body, so the constructed plan is the same for both values — restricted
token with `DISABLE_MAX_PRIVILEGE|LUA_TOKEN`, the fixed capability list,
and (because of the `if false`) no capabilities attached. -/
def winGetShellToolPlan (_allowNetwork : Bool) : WinToolPlan :=
  { tokenFlags := DISABLE_MAX_PRIVILEGE ||| LUA_TOKEN
    caps := runWithAppContainerCaps
    capsAppliedToProcess := securityCapabilitiesApplied }

/-- The standard-handle fields of the `STARTUPINFO` that
`runWithAppContainer` fills in. -/
structure WinStartupHandles where
  hStdOutput : Nat
  hStdError : Nat
deriving Repr, DecidableEq

/-- `runWithAppContainer` sets `StdOutput` and `StdErr` to the write end
of the one anonymous pipe it created. -/
def runWithAppContainerStartup (stdoutWrite : Nat) : WinStartupHandles :=
  { hStdOutput := stdoutWrite, hStdError := stdoutWrite }

/-- Output-plumbing shape of a Windows run: how many anonymous pipes are
created, how many concurrent reader tasks drain them, whether the wait on
the child uses an INFINITE timeout, and whether the launch is bound to
the caller's `context.Context`. -/
structure WinRunShape where
  pipes : Nat
  readerTasks : Nat
  waitInfinite : Bool
  ctxBound : Bool
deriving Repr, DecidableEq

/-- `runWithAppContainer` (the `shelltool` Windows strategy): one
`createPipe()` call, one sequential `readFromPipe` call on the calling
goroutine, `WaitForSingleObject(pi.Process, windows.INFINITE)`, and no
`context.Context` parameter anywhere in the function. -/
def runWithAppContainerShape : WinRunShape :=
  { pipes := 1, readerTasks := 0, waitInfinite := true, ctxBound := false }

/-- `runWithRestrictedAppContainer` (the earlier `internal/ask`
experiment): two pipes, two `go readFromPipe(...)` reader goroutines,
the same INFINITE wait, and again no context parameter. -/
def runWithRestrictedAppContainerShape : WinRunShape :=
  { pipes := 2, readerTasks := 2, waitInfinite := true, ctxBound := false }

/-- Lowercase hex digit. -/
def hexDigit (n : Nat) : Char :=
  if n < 10 then Char.ofNat (48 + n) else Char.ofNat (97 + (n - 10))

/-- `fmt.Sprintf("%08x", n)` for a 32-bit value: eight lowercase hex
digits, most significant first. -/
def hex8 (n : Nat) : String :=
  String.mk ((List.range 8).map (fun i => hexDigit (n / 16 ^ (7 - i) % 16)))

/-- The tail of `runWithAppContainer`: `err = nil; if exitCode != 0 { if
exitCode > 255 { err = fmt.Errorf("exit code 0x%08x", exitCode) } else {
err = fmt.Errorf("exit code %d", exitCode) } }`. -/
def exitCodeError (exitCode : Nat) : Option String :=
  if exitCode = 0 then none
  else if 255 < exitCode then some ("exit code 0x" ++ hex8 exitCode)
  else some ("exit code " ++ toString exitCode)

/-- What `runWithAppContainer` returns once the child has exited: the
output read from the pipe, paired with the exit-code error (if any):
`return stdout, err`. -/
def runWithAppContainerResult (output : String) (exitCode : Nat) :
    String × Option String :=
  (output, exitCodeError exitCode)

/-- What `runWithRestrictedAppContainer` returns once the child has
exited: `GetExitCodeProcess` stores the exit code, but the function ends
with `return buf.String(), nil` — the exit code is never consulted. -/
def runWithRestrictedAppContainerResult (output : String) (_exitCode : Nat) :
    String × Option String :=
  (output, none)

/-! ## Strategy Selector / tool construction (availability checks) -/

/-- One observable action performed while constructing a tool:
an `exec.LookPath` probe or the creation of a child process. -/
inductive ConstructEffect where
  | lookPath (p : String)
  | spawnProcess (argv : List String)
deriving Repr, DecidableEq

/-- `true` exactly for process-creation effects. -/
def ConstructEffect.isSpawn : ConstructEffect → Bool
  | .lookPath _ => false
  | .spawnProcess _ => true

/-- Which binaries `exec.LookPath` resolves on this host. -/
abbrev Avail := String → Bool

/-- Darwin `getShellTool` (the revision with availability checks): probe
`/usr/bin/sandbox-exec` then `/usr/zsh`, returning an error naming the
missing binary, otherwise the `zsh` tool. Result: (effect trace, tool
name or error). -/
def darwinGetShellTool (avail : Avail) : List ConstructEffect × Except String String :=
  if avail "/usr/bin/sandbox-exec" = false then
    ([.lookPath "/usr/bin/sandbox-exec"], .error "sandbox-exec not found: exec: file not found")
  else if avail "/usr/zsh" = false then
    ([.lookPath "/usr/bin/sandbox-exec", .lookPath "/usr/zsh"],
     .error "zsh not found: exec: file not found")
  else
    ([.lookPath "/usr/bin/sandbox-exec", .lookPath "/usr/zsh"], .ok "zsh")

/-- Linux `getSandbox` (`!windows && !darwin`): probe `bwrap`, returning
an error naming the missing binary, otherwise the `bash` tool. -/
def linuxGetSandbox (avail : Avail) : List ConstructEffect × Except String String :=
  if avail "bwrap" = false then
    ([.lookPath "bwrap"],
     .error "bwrap not found (install with sudo apt install bubblewrap): exec: file not found")
  else
    ([.lookPath "bwrap"], .ok "bash")

/-! ## Profile-text helpers -/

/-- Split a character list at newlines (accumulator-passing helper). -/
def linesAux : List Char → List Char → List (List Char)
  | [], acc => [acc.reverse]
  | c :: t, acc => if c = '\n' then acc.reverse :: linesAux t [] else linesAux t (c :: acc)

/-- The lines of a profile string, as character lists. -/
def profileLines (s : String) : List (List Char) := linesAux s.data []

/-- Whether the first list starts with the second. -/
def startsWithChars : List Char → List Char → Bool
  | _, [] => true
  | [], _ :: _ => false
  | c :: t, d :: u => c == d && startsWithChars t u

/-! ## Shared helper lemmas -/

theorem infix_append_left (a b : String) : a.data <:+: (a ++ b).data :=
  ⟨[], b.data, by simp [String.data_append]⟩

theorem infix_append_right (a b : String) : b.data <:+: (a ++ b).data :=
  ⟨a.data, [], by simp [String.data_append]⟩

theorem FS.lookup_set_self (fs : FS) (p c : String) :
    FS.lookup (FS.set fs p c) p = some c := by
  simp [FS.set, FS.lookup]

theorem FS.lookup_remove_self (fs : FS) (p : String) :
    FS.lookup (FS.remove fs p) p = none := by
  induction fs with
  | nil => rfl
  | cons e t ih =>
    simp only [FS.remove, List.filter_cons] at ih ⊢
    by_cases h : e.1 = p
    · simp [h, ih]
    · simp [h, FS.lookup, ih]

theorem concatWrites_pair (a b : WriteEvent) : concatWrites [a, b] = a.2 ++ b.2 := by
  simp [concatWrites]

/-! ## Claim C1 -/

/-- C1 counterexample: the claim quantifies over every platform strategy,
but the Linux strategy collects output with `cmd.Output()`, which captures
standard output only. For the child behavior that writes `"hi\n"` to
stdout and `"hello\n"` to stderr, the Linux result does not contain the
stderr line. -/
theorem c1_counterexample_linux_drops_stderr :
    ¬ ("hello\n".data <:+:
        (linuxCallbackOutput [(StdStream.stdout, "hi\n"), (StdStream.stderr, "hello\n")]).data) := by
  decide

/-- C1 (amended): for a script that writes one line to stdout and one
line to stderr, in either arrival order, the macOS strategy
(`CombinedOutput`) and the Windows strategy (single shared pipe) return a
merged result containing both lines with their content and line endings
intact; the Linux strategy (`cmd.Output()`) returns exactly the stdout
line, dropping the stderr line. -/
theorem c1_merged_output_amended (l1 l2 : String) (evs : List WriteEvent)
    (h : evs = [(StdStream.stdout, l1), (StdStream.stderr, l2)] ∨
         evs = [(StdStream.stderr, l2), (StdStream.stdout, l1)]) :
    (l1.data <:+: (darwinCallbackOutput evs).data) ∧
    (l2.data <:+: (darwinCallbackOutput evs).data) ∧
    (l1.data <:+: (windowsCallbackOutput evs).data) ∧
    (l2.data <:+: (windowsCallbackOutput evs).data) ∧
    linuxCallbackOutput evs = l1 := by
  have hw : ∀ evs' : List WriteEvent, windowsCallbackOutput evs' = concatWrites evs' :=
    fun evs' => readFromPipe_singlePipeChunks evs'
  rcases h with h | h <;> subst h
  · refine ⟨?_, ?_, ?_, ?_, ?_⟩
    · rw [darwinCallbackOutput, combinedOutput, concatWrites_pair]; exact infix_append_left l1 l2
    · rw [darwinCallbackOutput, combinedOutput, concatWrites_pair]; exact infix_append_right l1 l2
    · rw [hw, concatWrites_pair]; exact infix_append_left l1 l2
    · rw [hw, concatWrites_pair]; exact infix_append_right l1 l2
    · simp [linuxCallbackOutput, stdoutOutput, concatWrites]
  · refine ⟨?_, ?_, ?_, ?_, ?_⟩
    · rw [darwinCallbackOutput, combinedOutput, concatWrites_pair]; exact infix_append_right l2 l1
    · rw [darwinCallbackOutput, combinedOutput, concatWrites_pair]; exact infix_append_left l2 l1
    · rw [hw, concatWrites_pair]; exact infix_append_right l2 l1
    · rw [hw, concatWrites_pair]; exact infix_append_left l2 l1
    · simp [linuxCallbackOutput, stdoutOutput, concatWrites]

/-- C1 witness: the amended statement at the concrete test script of
`sandbox_test.go` (`echo hi` to stdout, `echo hello >&2` to stderr),
stdout line arriving first. -/
theorem c1_witness :
    ("hi\n".data <:+:
      (darwinCallbackOutput [(StdStream.stdout, "hi\n"), (StdStream.stderr, "hello\n")]).data) ∧
    ("hello\n".data <:+:
      (darwinCallbackOutput [(StdStream.stdout, "hi\n"), (StdStream.stderr, "hello\n")]).data) ∧
    ("hi\n".data <:+:
      (windowsCallbackOutput [(StdStream.stdout, "hi\n"), (StdStream.stderr, "hello\n")]).data) ∧
    ("hello\n".data <:+:
      (windowsCallbackOutput [(StdStream.stdout, "hi\n"), (StdStream.stderr, "hello\n")]).data) ∧
    linuxCallbackOutput [(StdStream.stdout, "hi\n"), (StdStream.stderr, "hello\n")] = "hi\n" :=
  c1_merged_output_amended "hi\n" "hello\n"
    [(StdStream.stdout, "hi\n"), (StdStream.stderr, "hello\n")] (Or.inl rfl)

/-! ## Claim C7 -/

/-- C7: on Linux, every invocation runs the external bubblewrap binary
with the fixed argument vector `--ro-bind / /, --tmpfs /tmp, --dev /dev,
--proc /proc`, followed by `bash -c` with the script inline as the last
command-line argument, and materializes no script file. -/
theorem c7_linux_fixed_argv (c : String) :
    (linuxCallbackInvocation c).argv =
      ["--ro-bind", "/", "/"] ++ ["--tmpfs", "/tmp"] ++ ["--dev", "/dev"] ++
        ["--proc", "/proc"] ++ ["--", "bash", "-c"] ++ [c] ∧
    (linuxCallbackInvocation c).materializedFiles = [] :=
  ⟨rfl, rfl⟩

/-! ## Claim C9 -/

/-- C9: on Windows (`runWithAppContainer`), both the child's
standard-output and standard-error handles are the write end of the one
anonymous pipe created; the merged result is exactly the bytes read
sequentially from that pipe's read end until end-of-file (the
concatenation of all child writes in order); one pipe is created and no
concurrent reader task is spawned. -/
theorem c9_windows_single_pipe (w : Nat) (evs : List WriteEvent) :
    (runWithAppContainerStartup w).hStdOutput = w ∧
    (runWithAppContainerStartup w).hStdError = w ∧
    runWithAppContainerShape.pipes = 1 ∧
    runWithAppContainerShape.readerTasks = 0 ∧
    windowsCallbackOutput evs = concatWrites evs :=
  ⟨rfl, rfl, rfl, rfl, readFromPipe_singlePipeChunks evs⟩

/-! ## Claim C10 -/

/-- C10: `writeTempFile` is atomic on write failure — when the temp file
is created but writing the content fails, the file is removed, the error
is surfaced and no path is handed to the caller; and when the call
succeeds (no error), the file at the returned path holds exactly the
given content. -/
theorem c10_writeTempFile_atomic (o : TempFileOracle) (fs : FS) (content : String) :
    (o.createOk = true → o.writeOk = false →
      (writeTempFile o fs content).2.1 = "" ∧
      ((writeTempFile o fs content).2.2).isSome = true ∧
      FS.lookup (writeTempFile o fs content).1 o.name = none) ∧
    ((writeTempFile o fs content).2.2 = none →
      FS.lookup (writeTempFile o fs content).1 (writeTempFile o fs content).2.1 =
        some content) := by
  constructor
  · intro hc hw
    rw [writeTempFile, hc, hw]
    simp [FS.lookup_remove_self]
  · intro hnone
    rcases hc : o.createOk with _ | _
    · rw [writeTempFile, hc] at hnone ⊢; simp at hnone
    · rcases hw : o.writeOk with _ | _
      · rw [writeTempFile, hc, hw] at hnone ⊢; simp at hnone
      · rcases hk : o.closeOk with _ | _
        · rw [writeTempFile, hc, hw, hk] at hnone ⊢; simp at hnone
        · rw [writeTempFile, hc, hw, hk]
          simp [FS.lookup_set_self]

/-- C10 witness: both halves of the statement at concrete oracles — a
write failure (file gone, no path, error surfaced) and a full success
(path holds the content). -/
theorem c10_witness :
    ((writeTempFile ⟨true, "/tmp/ask.1.sh", false, true⟩ [] "echo hi").2.1 = "" ∧
     ((writeTempFile ⟨true, "/tmp/ask.1.sh", false, true⟩ [] "echo hi").2.2).isSome = true ∧
     FS.lookup (writeTempFile ⟨true, "/tmp/ask.1.sh", false, true⟩ [] "echo hi").1
       "/tmp/ask.1.sh" = none) ∧
    FS.lookup (writeTempFile ⟨true, "/tmp/ask.2.sh", true, true⟩ [] "echo hi").1
      (writeTempFile ⟨true, "/tmp/ask.2.sh", true, true⟩ [] "echo hi").2.1 = some "echo hi" :=
  ⟨(c10_writeTempFile_atomic ⟨true, "/tmp/ask.1.sh", false, true⟩ [] "echo hi").1 rfl rfl,
   (c10_writeTempFile_atomic ⟨true, "/tmp/ask.2.sh", true, true⟩ [] "echo hi").2 rfl⟩

/-! ## Claim C2 -/

/-- C2 evaluation of the code at the failing configuration: the Windows
`getShellTool` builds the same plan for `allowNetwork=false` as for
`allowNetwork=true`; that plan requests the outbound-internet capability
SID for the AppContainer, and (because the security-capabilities update is
dead code) never attaches the capability set to the process at all — so
with `allowNetwork=false` the constructed policy does not deny outbound
network access. -/
theorem c2_network_capability_granted_eval :
    winGetShellToolPlan false = winGetShellToolPlan true ∧
    WELL_KNOWN_SID_CAPABILITY_INTERNET_CLIENT ∈ (winGetShellToolPlan false).caps ∧
    (winGetShellToolPlan false).capsAppliedToProcess = false := by
  refine ⟨rfl, ?_, rfl⟩
  simp [winGetShellToolPlan, runWithAppContainerCaps]

/-! ## Claim C3 -/

/-- C3 counterexample: the experiment Windows variant
(`runWithRestrictedAppContainer`, cited by the claim) retrieves the exit
code but returns `buf.String(), nil` — at exit code 1 the collected output
comes back with no error at all, so no error wrapping the exit code is
returned. -/
theorem c3_counterexample_experiment_ignores_exit_code :
    runWithRestrictedAppContainerResult "[STDOUT] partial output" 1 =
      ("[STDOUT] partial output", none) :=
  rfl

/-- C3 (amended): in the `shelltool` Windows strategy
(`runWithAppContainer`) a non-zero exit code is not a setup failure — the
collected output is returned together with an error whose message carries
the exit code (decimal up to 255, eight-digit hex above); the earlier
experimental variant (`runWithRestrictedAppContainer`) instead returns
the collected output with a nil error, ignoring the exit code. -/
theorem c3_exit_code_amended (out : String) (code : Nat) (h : code ≠ 0) :
    (runWithAppContainerResult out code).1 = out ∧
    (∃ msg, (runWithAppContainerResult out code).2 = some msg ∧
      (((toString code).data <:+: msg.data) ∨ ((hex8 code).data <:+: msg.data))) ∧
    (runWithRestrictedAppContainerResult out code).2 = none := by
  refine ⟨rfl, ?_, rfl⟩
  have hsnd : (runWithAppContainerResult out code).2 = exitCodeError code := rfl
  rw [hsnd, exitCodeError, if_neg h]
  by_cases h255 : 255 < code
  · rw [if_pos h255]
    exact ⟨_, rfl, Or.inr (infix_append_right "exit code 0x" (hex8 code))⟩
  · rw [if_neg h255]
    exact ⟨_, rfl, Or.inl (infix_append_right "exit code " (toString code))⟩

/-- C3 witness: the amended statement at output `"partial"` and exit
code 2. -/
theorem c3_witness :
    (runWithAppContainerResult "partial" 2).1 = "partial" ∧
    (∃ msg, (runWithAppContainerResult "partial" 2).2 = some msg ∧
      (((toString 2).data <:+: msg.data) ∨ ((hex8 2).data <:+: msg.data))) ∧
    (runWithRestrictedAppContainerResult "partial" 2).2 = none :=
  c3_exit_code_amended "partial" 2 (by decide)

/-! ## Claim C4 -/

/-- An invocation on which the macOS callback leaks a temp file: the
profile temp file is created and written, but closing it fails. -/
def c4FailingOracle : DarwinOracle :=
  { sbFile := { createOk := true, name := "/tmp/ask.1.sb", writeOk := true, closeOk := false }
    scriptFile := { createOk := true, name := "/tmp/ask.2.sh", writeOk := true, closeOk := true }
    events := []
    exitOk := true }

/-- C4 evaluation at the failing input: when `f.Close()` fails after a
successful write, `writeTempFile` returns the path *and* an error; the
callback's `if err != nil { return "", err }` runs before the
`defer os.Remove(askSB)` is registered, so the invocation completes with
an error while the materialized profile file is still present with its
full content. -/
theorem c4_profile_file_leak_eval :
    ((darwinCallback c4FailingOracle [] "echo hi").2.2).isSome = true ∧
    FS.lookup (darwinCallback c4FailingOracle [] "echo hi").1 "/tmp/ask.1.sb" = some sb :=
  ⟨rfl, rfl⟩

/-! ## Claim C5 -/

/-- C5: if the required external binary is absent — `bwrap` on Linux,
`sandbox-exec` or the shell interpreter on macOS — tool construction
returns an error whose message names the missing dependency, and the
construction performs no process creation (its effect trace holds only
`LookPath` probes, whatever the host looks like). -/
theorem c5_unavailable_dependency (avail : Avail) :
    (avail "bwrap" = false →
      ∃ msg, (linuxGetSandbox avail).2 = Except.error msg ∧ ("bwrap".data <:+: msg.data)) ∧
    (avail "/usr/bin/sandbox-exec" = false →
      ∃ msg, (darwinGetShellTool avail).2 = Except.error msg ∧
        ("sandbox-exec".data <:+: msg.data)) ∧
    (avail "/usr/bin/sandbox-exec" = true → avail "/usr/zsh" = false →
      ∃ msg, (darwinGetShellTool avail).2 = Except.error msg ∧ ("zsh".data <:+: msg.data)) ∧
    (linuxGetSandbox avail).1.all (fun e => !e.isSpawn) = true ∧
    (darwinGetShellTool avail).1.all (fun e => !e.isSpawn) = true := by
  refine ⟨?_, ?_, ?_, ?_, ?_⟩
  · intro h
    unfold linuxGetSandbox
    rw [if_pos h]
    exact ⟨_, rfl, by decide⟩
  · intro h
    unfold darwinGetShellTool
    rw [if_pos h]
    exact ⟨_, rfl, by decide⟩
  · intro h1 h2
    unfold darwinGetShellTool
    rw [if_neg (by simp [h1]), if_pos h2]
    exact ⟨_, rfl, by decide⟩
  · unfold linuxGetSandbox
    by_cases h : avail "bwrap" = false
    · rw [if_pos h]; rfl
    · rw [if_neg h]; rfl
  · unfold darwinGetShellTool
    by_cases h : avail "/usr/bin/sandbox-exec" = false
    · rw [if_pos h]; rfl
    · rw [if_neg h]
      by_cases h2 : avail "/usr/zsh" = false
      · rw [if_pos h2]; rfl
      · rw [if_neg h2]; rfl

/-- C5 witness: on a host with no binaries at all, both constructions
fail naming their missing binary; on a host with only `sandbox-exec`,
the macOS construction fails naming the shell interpreter. -/
theorem c5_witness :
    (∃ msg, (linuxGetSandbox (fun _ => false)).2 = Except.error msg ∧
      ("bwrap".data <:+: msg.data)) ∧
    (∃ msg, (darwinGetShellTool (fun _ => false)).2 = Except.error msg ∧
      ("sandbox-exec".data <:+: msg.data)) ∧
    (∃ msg, (darwinGetShellTool (fun p => p == "/usr/bin/sandbox-exec")).2 =
        Except.error msg ∧ ("zsh".data <:+: msg.data)) :=
  ⟨(c5_unavailable_dependency (fun _ => false)).1 rfl,
   (c5_unavailable_dependency (fun _ => false)).2.1 rfl,
   (c5_unavailable_dependency (fun p => p == "/usr/bin/sandbox-exec")).2.2.1
     (by decide) (by decide)⟩

/-! ## Claim C6 -/

/-- C6 counterexample: the macOS builder has no network toggle — the
profile it materializes is the constant `sb` whatever network access the
caller wanted, and even for a network-requesting invocation it still
contains the `(deny network*)` clause, so the network-deny clause is not
omitted when network access is requested. -/
theorem c6_counterexample_deny_network_unconditional :
    "(deny network*)".data <:+: (darwinProfile true).data := by
  have h : darwinProfile true = sb := rfl
  rw [h]
  decide

/-- C6 (amended): the macOS Policy Builder emits a constant deny-by-default
Seatbelt profile — its allow clauses are exactly process execution,
read-only file access, sysctl-read, mach-lookup, and writes under the
`/tmp` scratch subpath, with a blanket file-write deny — but the
network-deny clause is not tied to any network request: the profile used
by the strategy always contains it, its other source revision always
omits it, and the emitted profile does not vary with the requested
network access. -/
theorem c6_profile_amended :
    ("(deny default)".data <:+: sb.data) ∧
    ((profileLines sb).filter (fun l => startsWithChars l "(allow".data) =
      ["(allow process-exec)".data, "(allow file-read*)".data, "(allow sysctl-read)".data,
       "(allow mach-lookup)".data, "(allow file-write* (subpath \"/tmp\"))".data]) ∧
    ("(deny file-write*)".data <:+: sb.data) ∧
    ("(deny network*)".data <:+: sb.data) ∧
    (¬ ("(deny network*)".data <:+: sbRevNoNetworkDeny.data)) ∧
    (∀ an : Bool, darwinProfile an = sb) :=
  ⟨by decide, by decide, by decide, by decide, by decide, fun _ => rfl⟩

/-! ## Claim C8 -/

/-- C8 counterexample: the Windows strategy never consults the caller's
context — `runWithAppContainer` has no context parameter and waits on the
child with an INFINITE timeout (as does the experiment variant), so a
Windows execution does not honor the caller-supplied cancellation
signal. -/
theorem c8_counterexample_windows_wait_unbounded :
    runWithAppContainerShape.ctxBound = false ∧
    runWithAppContainerShape.waitInfinite = true ∧
    runWithRestrictedAppContainerShape.ctxBound = false :=
  ⟨rfl, rfl, rfl⟩

/-- C8 (amended): the Linux and macOS strategies launch the child through
`exec.CommandContext`, which kills it when the caller's context is
cancelled, and on macOS the filesystem cleanup after a failed run (the
form a cancellation takes there) is identical to the cleanup after a
successful one; the Windows strategy, however, is not bound to the
caller's context and waits with an INFINITE timeout, so cancellation is
not honored there. -/
theorem c8_cancellation_amended (c askSB s : String) (o : DarwinOracle) (fs : FS) :
    (linuxCallbackInvocation c).ctxBound = true ∧
    (darwinCallbackInvocation askSB s).ctxBound = true ∧
    (darwinCallback { o with exitOk := false } fs s).1 =
      (darwinCallback { o with exitOk := true } fs s).1 ∧
    runWithAppContainerShape.ctxBound = false := by
  obtain ⟨sbF, scF, evs, ex⟩ := o
  refine ⟨rfl, rfl, ?_, rfl⟩
  simp only [darwinCallback]
  rcases h1 : (writeTempFile sbF fs sb).2.2 with _ | e1
  · simp only [h1]
    rcases h2 : (writeTempFile scF (writeTempFile sbF fs sb).1 s).2.2 with _ | e2
    · simp only [h2]
    · simp only [h2]
  · simp only [h1]

end Ask
